import Mathlib

/-!
Shallow embedding of the Escroww Anchor program
(`src/contracts/programs/workspace/src/lib.rs`).

Identities (Solana `Pubkey`s) are modelled as `Nat`; lamport balances as
`Nat`; timestamps (`i64` unix seconds) as `Int`; Rust `String` fields as
byte lists (`List Nat`), so that `.length` is the Rust byte length.

Each instruction is embedded as a total Lean function combining, in order,
the Anchor `#[derive(Accounts)]` constraint checks (which run before the
handler body, in field-declaration order) and the handler's `require!`
chain.  A failed instruction aborts the whole transaction, so an `Except`
error models "no state mutation and no value movement".  PDA seed
derivation and signature verification are host primitives outside the
embedding (the spec treats them as external); the explicit
`constraint = ... @ ErrorCode...` checks of the source are embedded.

`Rent::get()?.minimum_balance` is an environment-supplied function and is
passed as an explicit parameter `min_balance : Nat → Nat`, applied exactly
where the source applies it, at size `8 + EscrowAccount::LEN`.
-/

namespace Workspace

/-- Error codes of the program's `ErrorCode` enum. -/
inductive ErrorCode
  | InvalidDeadline
  | InvalidAmount
  | UnauthorizedFreelancer
  | UnauthorizedClient
  | WorkNotSubmitted
  | AlreadySubmitted
  | AlreadyReleased
  | DeadlineNotPassed
  | MetadataTooLong
  | EscrowIdTooLong
deriving Repr, DecidableEq

/-- The `Config` account. -/
structure Config where
  bump : Nat
  authority : Nat
  is_active : Bool
  is_paused : Bool
  fee_bps : Nat
  treasury : Nat
  version : Nat
deriving Repr, DecidableEq

/-- The `EscrowAccount` account. -/
structure EscrowAccount where
  client : Nat
  freelancer : Nat
  amount : Nat
  deadline : Int
  is_submitted : Bool
  is_released : Bool
  metadata_ref : List Nat
  escrow_id : List Nat
  bump : Nat
deriving Repr, DecidableEq

/-- `EscrowAccount::LEN` from the source. -/
def EscrowAccount.LEN : Nat := 32 + 32 + 8 + 8 + 1 + 1 + (4 + 256) + (4 + 32) + 1

/-- `Config::LEN` from the source. -/
def Config.LEN : Nat := 1 + 32 + 1 + 1 + 2 + 32 + 1

/-- `initialize_config`: builds the fresh `Config` record.  `authority` is
the signing caller's key, `bump` the PDA bump supplied by the runtime;
`fee_bps` is the `u16` argument payload and `treasury` the `Pubkey`
argument.  The handler performs no validation. -/
def initialize_config (authority bump fee_bps treasury : Nat) : Config :=
  { bump := bump
    authority := authority
    is_active := true
    is_paused := false
    fee_bps := fee_bps
    treasury := treasury
    version := 1 }

/-- Transaction-level outcome of `create_escrow`: an application
`ErrorCode` raised by a `require!`, or a failure of the host
`system_program::transfer` (insufficient client funds). -/
inductive TxError
  | app (e : ErrorCode)
  | insufficientFunds
deriving Repr, DecidableEq

/-- Result of a successful `create_escrow`: the initialized record and the
post-transfer client and escrow-PDA lamport balances. -/
structure CreateResult where
  escrow : EscrowAccount
  client_lamports : Nat
  escrow_lamports : Nat
deriving Repr, DecidableEq

/-- `create_escrow`.  `client_lamports` is the client's spendable balance
when the handler runs, `escrow_lamports` the escrow PDA's balance after
account initialization (its rent reserve, paid by the client as part of
the out-of-scope allocation primitive).  The handler checks the id length,
the amount, the deadline against `now` (`Clock::get()`), then transfers
`amount` from client to escrow and writes every field of the record. -/
def create_escrow (client freelancer : Nat) (escrow_id : List Nat) (amount : Nat)
    (deadline now : Int) (bump : Nat) (client_lamports escrow_lamports : Nat) :
    Except TxError CreateResult :=
  if 32 < escrow_id.length then .error (.app .EscrowIdTooLong)
  else if amount = 0 then .error (.app .InvalidAmount)
  else if deadline ≤ now then .error (.app .InvalidDeadline)
  else if client_lamports < amount then .error .insufficientFunds
  else
    .ok { escrow :=
            { client := client
              freelancer := freelancer
              amount := amount
              deadline := deadline
              is_submitted := false
              is_released := false
              metadata_ref := []
              escrow_id := escrow_id
              bump := bump }
          client_lamports := client_lamports - amount
          escrow_lamports := escrow_lamports + amount }

/-- `submit_work`.  The Anchor constraint
`escrow.freelancer == freelancer.key() @ UnauthorizedFreelancer` runs
before the handler body; the body then checks the metadata length and the
two state flags and writes `metadata_ref` and `is_submitted`. -/
def submit_work (e : EscrowAccount) (caller : Nat) (metadata_ref : List Nat) :
    Except ErrorCode EscrowAccount :=
  if e.freelancer ≠ caller then .error .UnauthorizedFreelancer
  else if 256 < metadata_ref.length then .error .MetadataTooLong
  else if e.is_released = true then .error .AlreadyReleased
  else if e.is_submitted = true then .error .AlreadySubmitted
  else .ok { e with metadata_ref := metadata_ref, is_submitted := true }

/-- Result of a successful release: the updated record and the
post-transfer escrow-PDA and freelancer lamport balances. -/
structure ReleaseResult where
  escrow : EscrowAccount
  escrow_lamports : Nat
  freelancer_lamports : Nat
deriving Repr, DecidableEq

/-- `approve_release`.  Anchor constraints in field order:
`escrow.client == client.key() @ UnauthorizedClient`, then
`freelancer.key() == escrow.freelancer @ UnauthorizedFreelancer`.  The
body checks `is_submitted` then `is_released`, computes
`transfer_amount = escrow_lamports.saturating_sub(rent_exempt)` (Nat
subtraction is saturating) and moves it from the escrow PDA to the
freelancer, then sets `is_released = true` and `amount = 0`. -/
def approve_release (e : EscrowAccount) (caller fl_acct : Nat)
    (escrow_lamports freelancer_lamports : Nat) (min_balance : Nat → Nat) :
    Except ErrorCode ReleaseResult :=
  if e.client ≠ caller then .error .UnauthorizedClient
  else if fl_acct ≠ e.freelancer then .error .UnauthorizedFreelancer
  else if e.is_submitted = false then .error .WorkNotSubmitted
  else if e.is_released = true then .error .AlreadyReleased
  else
    let rent_exempt := min_balance (8 + EscrowAccount.LEN)
    let transfer_amount := escrow_lamports - rent_exempt
    .ok { escrow := { e with is_released := true, amount := 0 }
          escrow_lamports := escrow_lamports - transfer_amount
          freelancer_lamports := freelancer_lamports + transfer_amount }

/-- `trigger_auto_release`.  The accounts struct has no signer and no
caller-identity constraint (any party may invoke it); its only constraint
is `freelancer.key() == escrow.freelancer @ UnauthorizedFreelancer`.  The
body checks `is_submitted`, `is_released`, then
`clock.unix_timestamp > escrow.deadline` (`now ≤ deadline` fails
`DeadlineNotPassed`), then performs the same transfer as
`approve_release`. -/
def trigger_auto_release (e : EscrowAccount) (fl_acct : Nat) (now : Int)
    (escrow_lamports freelancer_lamports : Nat) (min_balance : Nat → Nat) :
    Except ErrorCode ReleaseResult :=
  if fl_acct ≠ e.freelancer then .error .UnauthorizedFreelancer
  else if e.is_submitted = false then .error .WorkNotSubmitted
  else if e.is_released = true then .error .AlreadyReleased
  else if now ≤ e.deadline then .error .DeadlineNotPassed
  else
    let rent_exempt := min_balance (8 + EscrowAccount.LEN)
    let transfer_amount := escrow_lamports - rent_exempt
    .ok { escrow := { e with is_released := true, amount := 0 }
          escrow_lamports := escrow_lamports - transfer_amount
          freelancer_lamports := freelancer_lamports + transfer_amount }

/-- Persistent on-chain state of one escrow deal: the record plus the
escrow PDA's lamport balance (the freelancer's balance and the clock are
per-invocation inputs, not part of the record's state). -/
structure ChainState where
  escrow : EscrowAccount
  escrow_lamports : Nat
deriving Repr, DecidableEq

deriving instance DecidableEq for Except

/-- One invocation of a post-creation instruction, with its
per-invocation inputs (caller identity, arguments, freelancer account and
balance, clock reading, rent function). -/
inductive EscrowOp
  | submitOp (caller : Nat) (metadata_ref : List Nat)
  | approveOp (caller fl_acct fl_lamports : Nat) (min_balance : Nat → Nat)
  | autoOp (fl_acct : Nat) (now : Int) (fl_lamports : Nat) (min_balance : Nat → Nat)

/-- Outcome of one invocation against the persistent state. -/
def opResult (s : ChainState) : EscrowOp → Except ErrorCode ChainState
  | .submitOp c m =>
    match submit_work s.escrow c m with
    | .ok e' => .ok ⟨e', s.escrow_lamports⟩
    | .error err => .error err
  | .approveOp c f fll mb =>
    match approve_release s.escrow c f s.escrow_lamports fll mb with
    | .ok r => .ok ⟨r.escrow, r.escrow_lamports⟩
    | .error err => .error err
  | .autoOp f now fll mb =>
    match trigger_auto_release s.escrow f now s.escrow_lamports fll mb with
    | .ok r => .ok ⟨r.escrow, r.escrow_lamports⟩
    | .error err => .error err

/-- Persistent state after one invocation: a failed instruction aborts its
transaction and leaves all state unchanged. -/
def runOp (s : ChainState) (op : EscrowOp) : ChainState :=
  match opResult s op with
  | .ok s' => s'
  | .error _ => s

/-- States reachable by the escrow operations: a state freshly produced by
a successful `create_escrow`, or any state after a further invocation
(successful or failed). -/
inductive Reachable : ChainState → Prop
  | created (client freelancer : Nat) (escrow_id : List Nat) (amount : Nat)
      (deadline now : Int) (bump cl el : Nat) (r : CreateResult)
      (h : create_escrow client freelancer escrow_id amount deadline now bump cl el
             = .ok r) :
      Reachable ⟨r.escrow, r.escrow_lamports⟩
  | step (s : ChainState) (op : EscrowOp) (h : Reachable s) : Reachable (runOp s op)

/-- Concrete escrow record used to evaluate the development on explicit
inputs: client `0`, freelancer `1`, amount `5`, deadline `10`. -/
def sampleEscrow : EscrowAccount :=
  { client := 0
    freelancer := 1
    amount := 5
    deadline := 10
    is_submitted := false
    is_released := false
    metadata_ref := []
    escrow_id := [7]
    bump := 0 }

/-- The sample record after the freelancer submitted metadata `[9]`. -/
def sampleSubmitted : EscrowAccount :=
  { sampleEscrow with metadata_ref := [9], is_submitted := true }

/-- The sample record after a successful release. -/
def sampleReleased : EscrowAccount :=
  { sampleSubmitted with is_released := true, amount := 0 }

/-- The released sample deal's persistent state: the escrow PDA retains
exactly its rent reserve of `20` lamports. -/
def relState : ChainState := ⟨sampleReleased, 20⟩

/-- Whether an invocation is of one of the two release instructions. -/
def isReleaseOp : EscrowOp → Bool
  | .submitOp _ _ => false
  | .approveOp _ _ _ _ => true
  | .autoOp _ _ _ _ => true

/-- Whether an invocation passes its Anchor authorization constraints and
input-length validation (everything checked before the state flags). -/
def authOk (s : ChainState) : EscrowOp → Prop
  | .submitOp c m => c = s.escrow.freelancer ∧ m.length ≤ 256
  | .approveOp c f _ _ => c = s.escrow.client ∧ f = s.escrow.freelancer
  | .autoOp f _ _ _ => f = s.escrow.freelancer

/-- Whether an `Except` outcome is a success. -/
def isOk : Except ErrorCode ChainState → Bool
  | .ok _ => true
  | .error _ => false

/-- Number of successful release invocations along a run of invocations
starting from `s`. -/
def countReleases : ChainState → List EscrowOp → Nat
  | _, [] => 0
  | s, op :: rest =>
    (if isReleaseOp op && isOk (opResult s op) then 1 else 0)
      + countReleases (runOp s op) rest

/-- Inversion of a successful `submit_work`: every guard passed and the
result is the input record with the metadata written and the submitted
flag set. -/
theorem submit_work_ok {e : EscrowAccount} {c : Nat} {m : List Nat} {e' : EscrowAccount}
    (h : submit_work e c m = .ok e') :
    e.freelancer = c ∧ m.length ≤ 256 ∧ e.is_released = false ∧ e.is_submitted = false ∧
    e' = { e with metadata_ref := m, is_submitted := true } := by
  unfold submit_work at h
  split at h
  · simp at h
  · split at h
    · simp at h
    · split at h
      · simp at h
      · split at h
        · simp at h
        · rename_i h1 h2 h3 h4
          simp only [Except.ok.injEq] at h
          refine ⟨not_not.mp h1, Nat.not_lt.mp h2, ?_, ?_, h.symm⟩
          · simpa using h3
          · simpa using h4

/-- Inversion of a successful `approve_release`. -/
theorem approve_release_ok {e : EscrowAccount} {caller fl el fll : Nat}
    {mb : Nat → Nat} {r : ReleaseResult}
    (h : approve_release e caller fl el fll mb = .ok r) :
    e.client = caller ∧ fl = e.freelancer ∧ e.is_submitted = true ∧ e.is_released = false ∧
    r = ⟨{ e with is_released := true, amount := 0 },
         el - (el - mb (8 + EscrowAccount.LEN)),
         fll + (el - mb (8 + EscrowAccount.LEN))⟩ := by
  unfold approve_release at h
  split at h
  · simp at h
  · split at h
    · simp at h
    · split at h
      · simp at h
      · split at h
        · simp at h
        · rename_i h1 h2 h3 h4
          simp only [Except.ok.injEq] at h
          refine ⟨not_not.mp h1, not_not.mp h2, ?_, ?_, h.symm⟩
          · simpa using h3
          · simpa using h4

/-- Inversion of a successful `trigger_auto_release`. -/
theorem trigger_auto_release_ok {e : EscrowAccount} {fl el fll : Nat} {now : Int}
    {mb : Nat → Nat} {r : ReleaseResult}
    (h : trigger_auto_release e fl now el fll mb = .ok r) :
    fl = e.freelancer ∧ e.is_submitted = true ∧ e.is_released = false ∧ e.deadline < now ∧
    r = ⟨{ e with is_released := true, amount := 0 },
         el - (el - mb (8 + EscrowAccount.LEN)),
         fll + (el - mb (8 + EscrowAccount.LEN))⟩ := by
  unfold trigger_auto_release at h
  split at h
  · simp at h
  · split at h
    · simp at h
    · split at h
      · simp at h
      · split at h
        · simp at h
        · rename_i h1 h2 h3 h4
          simp only [Except.ok.injEq] at h
          refine ⟨not_not.mp h1, ?_, ?_, not_le.mp h4, h.symm⟩
          · simpa using h2
          · simpa using h3

/-- Inversion of a successful `create_escrow`: every validation passed,
the client could pay, and the result is fully determined. -/
theorem create_escrow_ok {client freelancer : Nat} {escrow_id : List Nat} {amount : Nat}
    {deadline now : Int} {bump cl el : Nat} {r : CreateResult}
    (h : create_escrow client freelancer escrow_id amount deadline now bump cl el = .ok r) :
    escrow_id.length ≤ 32 ∧ 0 < amount ∧ now < deadline ∧ amount ≤ cl ∧
    r = ⟨{ client := client, freelancer := freelancer, amount := amount,
           deadline := deadline, is_submitted := false, is_released := false,
           metadata_ref := [], escrow_id := escrow_id, bump := bump },
         cl - amount, el + amount⟩ := by
  unfold create_escrow at h
  split at h
  · simp at h
  · split at h
    · simp at h
    · split at h
      · simp at h
      · split at h
        · simp at h
        · rename_i h1 h2 h3 h4
          simp only [Except.ok.injEq] at h
          exact ⟨Nat.not_lt.mp h1, Nat.pos_of_ne_zero h2, not_le.mp h3,
                 Nat.not_lt.mp h4, h.symm⟩

/-- A successful invocation yields the new persistent state. -/
theorem runOp_of_ok {s s' : ChainState} {op : EscrowOp}
    (h : opResult s op = .ok s') : runOp s op = s' := by
  simp [runOp, h]

/-- A failed invocation leaves the persistent state unchanged. -/
theorem runOp_of_error {s : ChainState} {op : EscrowOp} {err : ErrorCode}
    (h : opResult s op = .error err) : runOp s op = s := by
  simp [runOp, h]

/-- No invocation succeeds on a record whose funds are already released. -/
theorem opResult_ok_not_released {s s' : ChainState} {op : EscrowOp}
    (h : opResult s op = .ok s') : s.escrow.is_released = false := by
  cases op with
  | submitOp c m =>
    simp only [opResult] at h
    split at h
    · rename_i e' hsw
      exact (submit_work_ok hsw).2.2.1
    · simp at h
  | approveOp c f fll mb =>
    simp only [opResult] at h
    split at h
    · rename_i r hap
      exact (approve_release_ok hap).2.2.2.1
    · simp at h
  | autoOp f now fll mb =>
    simp only [opResult] at h
    split at h
    · rename_i r hau
      exact (trigger_auto_release_ok hau).2.2.1
    · simp at h

/-- A successful release invocation marks the record released. -/
theorem release_ok_released {s s' : ChainState} {op : EscrowOp}
    (hrel : isReleaseOp op = true) (h : opResult s op = .ok s') :
    s'.escrow.is_released = true := by
  cases op with
  | submitOp c m => simp [isReleaseOp] at hrel
  | approveOp c f fll mb =>
    simp only [opResult] at h
    split at h
    · rename_i r hap
      obtain ⟨_, _, _, _, hr⟩ := approve_release_ok hap
      cases h
      simp [hr]
    · simp at h
  | autoOp f now fll mb =>
    simp only [opResult] at h
    split at h
    · rename_i r hau
      obtain ⟨_, _, _, _, hr⟩ := trigger_auto_release_ok hau
      cases h
      simp [hr]
    · simp at h

/-- Once released, every invocation leaves the state unchanged. -/
theorem runOp_eq_of_released {s : ChainState} {op : EscrowOp}
    (h : s.escrow.is_released = true) : runOp s op = s := by
  unfold runOp
  split
  · rename_i s' hok
    have hf := opResult_ok_not_released hok
    rw [h] at hf
    simp at hf
  · rfl

/-- Released states satisfy the record invariant: the submitted flag is
set and the informational amount is zero. -/
def GoodState (s : ChainState) : Prop :=
  s.escrow.is_released = true → s.escrow.is_submitted = true ∧ s.escrow.amount = 0

/-- Every successful invocation produces a state satisfying the
invariant. -/
theorem opResult_ok_good {s s' : ChainState} {op : EscrowOp}
    (h : opResult s op = .ok s') : GoodState s' := by
  cases op with
  | submitOp c m =>
    simp only [opResult] at h
    split at h
    · rename_i e' hsw
      obtain ⟨_, _, hrel, _, he⟩ := submit_work_ok hsw
      cases h
      intro hr
      rw [he] at hr
      simp [hrel] at hr
    · simp at h
  | approveOp c f fll mb =>
    simp only [opResult] at h
    split at h
    · rename_i r hap
      obtain ⟨_, _, hsub, _, hr⟩ := approve_release_ok hap
      cases h
      intro _
      simp [hr, hsub]
    · simp at h
  | autoOp f now fll mb =>
    simp only [opResult] at h
    split at h
    · rename_i r hau
      obtain ⟨_, hsub, _, _, hr⟩ := trigger_auto_release_ok hau
      cases h
      intro _
      simp [hr, hsub]
    · simp at h

/-- The record invariant holds in every reachable state. -/
theorem reachable_good {s : ChainState} (h : Reachable s) : GoodState s := by
  induction h with
  | created client freelancer escrow_id amount deadline now bump cl el r hc =>
    obtain ⟨_, _, _, _, hr⟩ := create_escrow_ok hc
    intro hrel
    rw [hr] at hrel
    simp at hrel
  | step s op hs ih =>
    cases hres : opResult s op with
    | ok s' =>
      rw [runOp_of_ok hres]
      exact opResult_ok_good hres
    | error err =>
      rw [runOp_of_error hres]
      exact ih

/-- On a released record, a Submit whose authorization and length checks
pass fails with `AlreadyReleased`. -/
theorem submit_work_released {e : EscrowAccount} {c : Nat} {m : List Nat}
    (hrel : e.is_released = true) (hc : c = e.freelancer) (hm : m.length ≤ 256) :
    submit_work e c m = .error .AlreadyReleased := by
  subst hc
  simp [submit_work, hrel, Nat.not_lt.mpr hm]

/-- On a released, submitted record, an Approve by the right client with
the right freelancer account fails with `AlreadyReleased`. -/
theorem approve_release_released {e : EscrowAccount} {caller fl el fll : Nat}
    {mb : Nat → Nat} (hrel : e.is_released = true) (hsub : e.is_submitted = true)
    (hc : caller = e.client) (hf : fl = e.freelancer) :
    approve_release e caller fl el fll mb = .error .AlreadyReleased := by
  subst hc
  subst hf
  simp [approve_release, hrel, hsub]

/-- On a released, submitted record, an AutoRelease with the right
freelancer account fails with `AlreadyReleased` at every clock reading. -/
theorem trigger_auto_release_released {e : EscrowAccount} {fl el fll : Nat} {now : Int}
    {mb : Nat → Nat} (hrel : e.is_released = true) (hsub : e.is_submitted = true)
    (hf : fl = e.freelancer) :
    trigger_auto_release e fl now el fll mb = .error .AlreadyReleased := by
  subst hf
  simp [trigger_auto_release, hrel, hsub]

/-- On a released state satisfying the invariant, every invocation that
passes its authorization and input validation fails `AlreadyReleased`. -/
theorem released_op_already {s : ChainState} {op : EscrowOp} (hg : GoodState s)
    (hrel : s.escrow.is_released = true) (hauth : authOk s op) :
    opResult s op = .error .AlreadyReleased := by
  cases op with
  | submitOp c m =>
    obtain ⟨hc, hm⟩ := hauth
    simp [opResult, submit_work_released hrel hc hm]
  | approveOp c f fll mb =>
    obtain ⟨hc, hf⟩ := hauth
    simp [opResult, approve_release_released hrel (hg hrel).1 hc hf]
  | autoOp f now fll mb =>
    simp [opResult, trigger_auto_release_released hrel (hg hrel).1 hauth]

/-- From a released state, no run of invocations contains a successful
release. -/
theorem countReleases_of_released {s : ChainState} (h : s.escrow.is_released = true) :
    ∀ ops : List EscrowOp, countReleases s ops = 0 := by
  intro ops
  induction ops with
  | nil => rfl
  | cons op rest ih =>
    unfold countReleases
    rw [runOp_eq_of_released h, ih]
    have hok : isOk (opResult s op) = false := by
      cases hres : opResult s op with
      | ok s' =>
        have hf := opResult_ok_not_released hres
        rw [h] at hf
        simp at hf
      | error err => rfl
    simp [hok]

/-- From any state, at most one release invocation ever succeeds along a
run. -/
theorem countReleases_le_one (ops : List EscrowOp) :
    ∀ s : ChainState, countReleases s ops ≤ 1 := by
  induction ops with
  | nil =>
    intro s
    simp [countReleases]
  | cons op rest ih =>
    intro s
    unfold countReleases
    cases hres : opResult s op with
    | error err =>
      rw [runOp_of_error hres]
      simpa [isOk] using ih s
    | ok s' =>
      rw [runOp_of_ok hres]
      by_cases hr : isReleaseOp op = true
      · have hrel : s'.escrow.is_released = true := release_ok_released hr hres
        rw [countReleases_of_released hrel rest]
        simp [hr, isOk]
      · have hr' : isReleaseOp op = false := by simpa using hr
        simpa [hr'] using ih s'

/-- The sample deal's creation: client balance `100`, escrow reserve `20`,
deposit `5`. -/
theorem sampleCreate_ok :
    create_escrow 0 1 [7] 5 10 0 0 100 20 = .ok ⟨sampleEscrow, 95, 25⟩ := by
  rfl

/-- The released sample state is reachable: create, then submit by the
freelancer, then approve by the client (rent function constant `20`). -/
theorem relState_reachable : Reachable relState := by
  have h0 : Reachable ⟨sampleEscrow, 25⟩ :=
    Reachable.created 0 1 [7] 5 10 0 0 100 20 ⟨sampleEscrow, 95, 25⟩ rfl
  have h1 := Reachable.step _ (EscrowOp.submitOp 1 [9]) h0
  have e1 : runOp ⟨sampleEscrow, 25⟩ (EscrowOp.submitOp 1 [9]) = ⟨sampleSubmitted, 25⟩ := by
    decide
  rw [e1] at h1
  have h2 := Reachable.step _ (EscrowOp.approveOp 0 1 50 (fun _ => 20)) h1
  have e2 : runOp ⟨sampleSubmitted, 25⟩ (EscrowOp.approveOp 0 1 50 (fun _ => 20)) = relState := by
    decide
  rw [e2] at h2
  exact h2

/-- C1 (amended): for every state reachable by the four escrow
operations, `is_released` implies `is_submitted`; and once `is_released`
is true, `amount = 0`, no subsequent Submit, Approve or AutoRelease
invocation succeeds or mutates the record, and every such invocation that
passes its authorization and input-length checks fails with
`AlreadyReleased`.  (The claim's parenthetical that each subsequent call
fails `AlreadyReleased` unconditionally is refuted by
`released_terminal_cex`: a call failing an earlier authorization check
reports that check's error instead, while still mutating nothing.) -/
theorem released_is_terminal (s : ChainState) (hreach : Reachable s) :
    (s.escrow.is_released = true → s.escrow.is_submitted = true) ∧
    (s.escrow.is_released = true →
      s.escrow.amount = 0 ∧
      ∀ op : EscrowOp,
        (∀ s', opResult s op ≠ .ok s') ∧
        runOp s op = s ∧
        (authOk s op → opResult s op = .error .AlreadyReleased)) := by
  have hg := reachable_good hreach
  refine ⟨fun hr => (hg hr).1, fun hr => ⟨(hg hr).2, fun op => ⟨?_, runOp_eq_of_released hr, fun hauth => released_op_already hg hr hauth⟩⟩⟩
  intro s' hok
  have hf := opResult_ok_not_released hok
  rw [hr] at hf
  simp at hf

/-- Witness for C1 at the concrete released reachable state `relState`:
the invariant holds there and an authorized Submit fails
`AlreadyReleased` without mutating anything. -/
theorem released_is_terminal_witness :
    relState.escrow.is_submitted = true ∧
    relState.escrow.amount = 0 ∧
    runOp relState (EscrowOp.submitOp 1 [9]) = relState ∧
    opResult relState (EscrowOp.submitOp 1 [9]) = .error .AlreadyReleased := by
  have h := released_is_terminal relState relState_reachable
  have hrel : relState.escrow.is_released = true := by decide
  exact ⟨h.1 hrel, (h.2 hrel).1,
    ((h.2 hrel).2 (EscrowOp.submitOp 1 [9])).2.1,
    ((h.2 hrel).2 (EscrowOp.submitOp 1 [9])).2.2 ⟨by decide, by decide⟩⟩

/-- Counterexample to C1 as stated: on the released reachable state
`relState`, a Submit by identity `2` (not the freelancer) fails with
`UnauthorizedFreelancer`, not `AlreadyReleased`. -/
theorem released_terminal_cex :
    Reachable relState ∧
    relState.escrow.is_released = true ∧
    opResult relState (EscrowOp.submitOp 2 []) = .error .UnauthorizedFreelancer ∧
    opResult relState (EscrowOp.submitOp 2 []) ≠ .error .AlreadyReleased :=
  ⟨relState_reachable, by decide, by decide, by decide⟩

/-- C3 (amended): from any reachable state, at most one release
invocation (Approve or AutoRelease) ever succeeds along any run; a
successful release marks the record released; and once released, every
later release invocation leaves the state unchanged, never succeeds, and
fails with `AlreadyReleased` whenever its authorization checks pass.
(The claim's assertion that every later call fails `AlreadyReleased`
unconditionally is refuted by `release_once_cex`: an Approve by a
non-client fails `UnauthorizedClient` instead, still moving no value.) -/
theorem release_mutual_exclusion (s : ChainState) (hreach : Reachable s) :
    (∀ ops : List EscrowOp, countReleases s ops ≤ 1) ∧
    (∀ op s', isReleaseOp op = true → opResult s op = .ok s' →
      s'.escrow.is_released = true) ∧
    (s.escrow.is_released = true → ∀ op, isReleaseOp op = true →
      runOp s op = s ∧
      (∀ s', opResult s op ≠ .ok s') ∧
      (authOk s op → opResult s op = .error .AlreadyReleased)) := by
  have hg := reachable_good hreach
  refine ⟨fun ops => countReleases_le_one ops s,
    fun op s' hr hok => release_ok_released hr hok,
    fun hrel op _ => ⟨runOp_eq_of_released hrel, ?_, fun hauth => released_op_already hg hrel hauth⟩⟩
  intro s' hok
  have hf := opResult_ok_not_released hok
  rw [hrel] at hf
  simp at hf

/-- Witness for C3 at `relState`: a run attempting both releases scores
at most one success, and an authorized AutoRelease after the release
fails `AlreadyReleased` leaving the state unchanged. -/
theorem release_mutual_exclusion_witness :
    countReleases relState
      [EscrowOp.approveOp 0 1 50 (fun _ => 20), EscrowOp.autoOp 1 11 50 (fun _ => 20)] ≤ 1 ∧
    runOp relState (EscrowOp.autoOp 1 11 50 (fun _ => 20)) = relState ∧
    opResult relState (EscrowOp.autoOp 1 11 50 (fun _ => 20)) = .error .AlreadyReleased := by
  have h := release_mutual_exclusion relState relState_reachable
  have hrel : relState.escrow.is_released = true := by decide
  exact ⟨h.1 _,
    (h.2.2 hrel (EscrowOp.autoOp 1 11 50 (fun _ => 20)) (by decide)).1,
    (h.2.2 hrel (EscrowOp.autoOp 1 11 50 (fun _ => 20)) (by decide)).2.2 rfl⟩

/-- Counterexample to C3 as stated: after the successful release reaching
`relState`, an Approve invocation by identity `2` (not the client) fails
with `UnauthorizedClient`, not `AlreadyReleased`. -/
theorem release_once_cex :
    Reachable relState ∧
    relState.escrow.is_released = true ∧
    isReleaseOp (EscrowOp.approveOp 2 1 50 (fun _ => 20)) = true ∧
    opResult relState (EscrowOp.approveOp 2 1 50 (fun _ => 20)) = .error .UnauthorizedClient ∧
    opResult relState (EscrowOp.approveOp 2 1 50 (fun _ => 20)) ≠ .error .AlreadyReleased :=
  ⟨relState_reachable, by decide, by decide, by decide, by decide⟩

/-- C2: an Approve by the record's client, with the freelancer account
equal to the stored freelancer, on a submitted unreleased record succeeds:
it computes the reserve as the host minimum balance for this record's
size (`8 + EscrowAccount::LEN`), moves exactly
`max(0, balance - reserve)` from the escrow's custody balance to the
freelancer, and sets `is_released = true` and `amount = 0`.  The second
conjunct identifies the Nat saturating subtraction with the claim's
`max(0, balance - reserve)` over the integers; the third states that the
moved value is exactly what the custody balance loses. -/
theorem approve_release_spec (e : EscrowAccount) (caller fl el fll : Nat)
    (mb : Nat → Nat) (hc : caller = e.client) (hf : fl = e.freelancer)
    (hs : e.is_submitted = true) (hr : e.is_released = false) :
    approve_release e caller fl el fll mb =
      .ok { escrow := { e with is_released := true, amount := 0 }
            escrow_lamports := el - (el - mb (8 + EscrowAccount.LEN))
            freelancer_lamports := fll + (el - mb (8 + EscrowAccount.LEN)) } ∧
    ((el - mb (8 + EscrowAccount.LEN) : ℕ) : ℤ) =
      max 0 ((el : ℤ) - (mb (8 + EscrowAccount.LEN) : ℤ)) ∧
    (el - (el - mb (8 + EscrowAccount.LEN))) + (el - mb (8 + EscrowAccount.LEN)) = el := by
  subst hc
  subst hf
  refine ⟨?_, ?_, by omega⟩
  · simp [approve_release, hs, hr]
  · rcases le_total (mb (8 + EscrowAccount.LEN)) el with h | h
    · rw [Int.natCast_sub h, max_eq_right (sub_nonneg.mpr (Nat.cast_le.mpr h))]
    · rw [Nat.sub_eq_zero_of_le h, max_eq_left (sub_nonpos.mpr (Nat.cast_le.mpr h))]
      simp

/-- Witness for C2: approving the submitted sample deal with custody
balance `25`, reserve `20`, freelancer balance `50` transfers `5`. -/
theorem approve_release_spec_witness :
    approve_release sampleSubmitted 0 1 25 50 (fun _ => 20) =
      .ok { escrow := { sampleSubmitted with is_released := true, amount := 0 }
            escrow_lamports := 25 - (25 - (fun _ : Nat => 20) (8 + EscrowAccount.LEN))
            freelancer_lamports := 50 + (25 - (fun _ : Nat => 20) (8 + EscrowAccount.LEN)) } :=
  (approve_release_spec sampleSubmitted 0 1 25 50 (fun _ => 20) rfl rfl rfl rfl).1

/-- C4: CreateEscrow succeeds on a valid id, positive amount and future
deadline (given the client can fund the deposit), moving exactly `amount`
from the client to the record's custody balance and initializing the
record with both flags false and empty metadata; it fails
`EscrowIdTooLong` for an id over 32 bytes, `InvalidAmount` for a zero
amount, and `InvalidDeadline` for a deadline at or before `now`.  A
failure returns no record and moves no value (a failed transaction
commits nothing in this model). -/
theorem create_escrow_spec (client freelancer : Nat) (escrow_id : List Nat)
    (amount : Nat) (deadline now : Int) (bump cl el : Nat) :
    (escrow_id.length ≤ 32 → 0 < amount → now < deadline → amount ≤ cl →
      create_escrow client freelancer escrow_id amount deadline now bump cl el =
        .ok { escrow := { client := client, freelancer := freelancer, amount := amount,
                          deadline := deadline, is_submitted := false, is_released := false,
                          metadata_ref := [], escrow_id := escrow_id, bump := bump }
              client_lamports := cl - amount
              escrow_lamports := el + amount }) ∧
    (32 < escrow_id.length →
      create_escrow client freelancer escrow_id amount deadline now bump cl el =
        .error (.app .EscrowIdTooLong)) ∧
    (escrow_id.length ≤ 32 → amount = 0 →
      create_escrow client freelancer escrow_id amount deadline now bump cl el =
        .error (.app .InvalidAmount)) ∧
    (escrow_id.length ≤ 32 → 0 < amount → deadline ≤ now →
      create_escrow client freelancer escrow_id amount deadline now bump cl el =
        .error (.app .InvalidDeadline)) := by
  refine ⟨?_, ?_, ?_, ?_⟩
  · intro h1 h2 h3 h4
    have n1 : ¬ 32 < escrow_id.length := by omega
    have n2 : ¬ amount = 0 := by omega
    have n3 : ¬ deadline ≤ now := by omega
    have n4 : ¬ cl < amount := by omega
    simp [create_escrow, n1, n2, n3, n4]
  · intro h1
    simp [create_escrow, h1]
  · intro h1 h2
    have n1 : ¬ 32 < escrow_id.length := by omega
    simp [create_escrow, n1, h2]
  · intro h1 h2 h3
    have n1 : ¬ 32 < escrow_id.length := by omega
    have n2 : ¬ amount = 0 := by omega
    simp [create_escrow, n1, n2, h3]

/-- Witness for C4: the sample creation succeeds and each invalid input
fails with its error. -/
theorem create_escrow_spec_witness :
    create_escrow 0 1 [7] 5 10 0 0 100 20 =
      .ok { escrow := { client := 0, freelancer := 1, amount := 5, deadline := 10,
                        is_submitted := false, is_released := false,
                        metadata_ref := [], escrow_id := [7], bump := 0 }
            client_lamports := 100 - 5
            escrow_lamports := 20 + 5 } ∧
    create_escrow 0 1 (List.replicate 33 0) 5 10 0 0 100 20 =
      .error (.app .EscrowIdTooLong) ∧
    create_escrow 0 1 [7] 0 10 0 0 100 20 = .error (.app .InvalidAmount) ∧
    create_escrow 0 1 [7] 5 0 10 0 100 20 = .error (.app .InvalidDeadline) :=
  ⟨(create_escrow_spec 0 1 [7] 5 10 0 0 100 20).1 (by decide) (by decide)
      (by decide) (by decide),
   (create_escrow_spec 0 1 (List.replicate 33 0) 5 10 0 0 100 20).2.1 (by decide),
   (create_escrow_spec 0 1 [7] 0 10 0 0 100 20).2.2.1 (by decide) rfl,
   (create_escrow_spec 0 1 [7] 5 0 10 0 100 20).2.2.2 (by decide) (by decide) (by decide)⟩

/-- C5: SubmitWork fails `UnauthorizedFreelancer` when the caller is not
the record's stored freelancer (so `is_submitted` stays false, the
transaction aborting), `MetadataTooLong` for metadata over 256 bytes,
`AlreadyReleased` on a released record, `AlreadySubmitted` on a record
already submitted; and succeeds exactly on the remaining case, writing
the metadata and setting `is_submitted`.  The branch order matches the
program: the Anchor constraint runs before the handler's checks. -/
theorem submit_work_cases (e : EscrowAccount) (c : Nat) (m : List Nat) :
    (c ≠ e.freelancer → submit_work e c m = .error .UnauthorizedFreelancer) ∧
    (c = e.freelancer → 256 < m.length → submit_work e c m = .error .MetadataTooLong) ∧
    (c = e.freelancer → m.length ≤ 256 → e.is_released = true →
      submit_work e c m = .error .AlreadyReleased) ∧
    (c = e.freelancer → m.length ≤ 256 → e.is_released = false → e.is_submitted = true →
      submit_work e c m = .error .AlreadySubmitted) ∧
    (c = e.freelancer → m.length ≤ 256 → e.is_released = false → e.is_submitted = false →
      submit_work e c m = .ok { e with metadata_ref := m, is_submitted := true }) := by
  refine ⟨?_, ?_, ?_, ?_, ?_⟩
  · intro h1
    simp [submit_work, Ne.symm h1]
  · intro h1 h2
    subst h1
    simp [submit_work, h2]
  · intro h1 h2 h3
    subst h1
    simp [submit_work, Nat.not_lt.mpr h2, h3]
  · intro h1 h2 h3 h4
    subst h1
    simp [submit_work, Nat.not_lt.mpr h2, h3, h4]
  · intro h1 h2 h3 h4
    subst h1
    simp [submit_work, Nat.not_lt.mpr h2, h3, h4]

set_option maxRecDepth 4000 in
/-- Witness for C5: each branch at a concrete input. -/
theorem submit_work_cases_witness :
    submit_work sampleEscrow 2 [] = .error .UnauthorizedFreelancer ∧
    submit_work sampleEscrow 1 (List.replicate 257 0) = .error .MetadataTooLong ∧
    submit_work sampleReleased 1 [9] = .error .AlreadyReleased ∧
    submit_work sampleSubmitted 1 [9] = .error .AlreadySubmitted ∧
    submit_work sampleEscrow 1 [9] =
      .ok { sampleEscrow with metadata_ref := [9], is_submitted := true } :=
  ⟨(submit_work_cases sampleEscrow 2 []).1 (by decide),
   (submit_work_cases sampleEscrow 1 (List.replicate 257 0)).2.1 rfl (by simp),
   (submit_work_cases sampleReleased 1 [9]).2.2.1 rfl (by decide) rfl,
   (submit_work_cases sampleSubmitted 1 [9]).2.2.2.1 rfl (by decide) rfl rfl,
   (submit_work_cases sampleEscrow 1 [9]).2.2.2.2 rfl (by decide) rfl rfl⟩

/-- C6: TriggerAutoRelease takes no caller identity at all (its accounts
struct has no signer and no caller constraint — any party may invoke it;
the embedding's function accordingly has no caller parameter).  With the
freelancer account matching the record, it fails `WorkNotSubmitted` on an
unsubmitted record at every clock reading, `AlreadyReleased` on a
released record, and `DeadlineNotPassed` when the clock is not strictly
past the deadline; in particular, on an unsubmitted record strictly after
the deadline it fails `WorkNotSubmitted`, not `DeadlineNotPassed`. -/
theorem auto_release_errors (e : EscrowAccount) (fl : Nat) (now : Int) (el fll : Nat)
    (mb : Nat → Nat) :
    (fl = e.freelancer → e.is_submitted = false →
      trigger_auto_release e fl now el fll mb = .error .WorkNotSubmitted) ∧
    (fl = e.freelancer → e.is_submitted = true → e.is_released = true →
      trigger_auto_release e fl now el fll mb = .error .AlreadyReleased) ∧
    (fl = e.freelancer → e.is_submitted = true → e.is_released = false →
      now ≤ e.deadline →
      trigger_auto_release e fl now el fll mb = .error .DeadlineNotPassed) ∧
    (fl = e.freelancer → e.is_submitted = false → e.deadline < now →
      trigger_auto_release e fl now el fll mb = .error .WorkNotSubmitted) := by
  refine ⟨?_, ?_, ?_, ?_⟩
  · intro h1 h2
    subst h1
    simp [trigger_auto_release, h2]
  · intro h1 h2 h3
    subst h1
    simp [trigger_auto_release, h2, h3]
  · intro h1 h2 h3 h4
    subst h1
    simp [trigger_auto_release, h2, h3, h4]
  · intro h1 h2 _
    subst h1
    simp [trigger_auto_release, h2]

/-- Witness for C6: each error branch at a concrete input; the last
conjunct is an unsubmitted record strictly past its deadline. -/
theorem auto_release_errors_witness :
    trigger_auto_release sampleEscrow 1 3 25 50 (fun _ => 20) =
      .error .WorkNotSubmitted ∧
    trigger_auto_release sampleReleased 1 11 20 50 (fun _ => 20) =
      .error .AlreadyReleased ∧
    trigger_auto_release sampleSubmitted 1 3 25 50 (fun _ => 20) =
      .error .DeadlineNotPassed ∧
    trigger_auto_release sampleEscrow 1 11 25 50 (fun _ => 20) =
      .error .WorkNotSubmitted :=
  ⟨(auto_release_errors sampleEscrow 1 3 25 50 (fun _ => 20)).1 rfl rfl,
   (auto_release_errors sampleReleased 1 11 20 50 (fun _ => 20)).2.1 rfl rfl rfl,
   (auto_release_errors sampleSubmitted 1 3 25 50 (fun _ => 20)).2.2.1 rfl rfl rfl
     (by decide),
   (auto_release_errors sampleEscrow 1 11 25 50 (fun _ => 20)).2.2.2 rfl rfl (by decide)⟩

/-- C7 (amended): in both release instructions the freelancer account
supplied at call time must equal the record's stored `freelancer`; on a
mismatch the operation fails and no value moves — `TriggerAutoRelease`
always with `UnauthorizedFreelancer`, and `ApproveRelease` with
`UnauthorizedFreelancer` whenever its caller is the record's client (a
non-client caller fails the earlier `UnauthorizedClient` constraint
first, see `freelancer_guard_cex`).  Consequently a successful release
implies the supplied account is exactly `record.freelancer`, so released
funds can never be directed to any other identity. -/
theorem freelancer_account_guard (e : EscrowAccount) (caller fl : Nat) (now : Int)
    (el fll : Nat) (mb : Nat → Nat) :
    (caller = e.client → fl ≠ e.freelancer →
      approve_release e caller fl el fll mb = .error .UnauthorizedFreelancer) ∧
    (fl ≠ e.freelancer →
      trigger_auto_release e fl now el fll mb = .error .UnauthorizedFreelancer) ∧
    (fl ≠ e.freelancer → ∀ r, approve_release e caller fl el fll mb ≠ .ok r) ∧
    (fl ≠ e.freelancer → ∀ r, trigger_auto_release e fl now el fll mb ≠ .ok r) ∧
    (∀ r, approve_release e caller fl el fll mb = .ok r → fl = e.freelancer) ∧
    (∀ r, trigger_auto_release e fl now el fll mb = .ok r → fl = e.freelancer) := by
  refine ⟨?_, ?_, ?_, ?_, ?_, ?_⟩
  · intro hc hf
    subst hc
    simp [approve_release, hf]
  · intro hf
    simp [trigger_auto_release, hf]
  · intro hf r hok
    exact hf ((approve_release_ok hok).2.1)
  · intro hf r hok
    exact hf ((trigger_auto_release_ok hok).1)
  · intro r hok
    exact (approve_release_ok hok).2.1
  · intro r hok
    exact (trigger_auto_release_ok hok).1

/-- Witness for C7: mismatched freelancer accounts fail both releases at
concrete inputs, and the successful sample release pins the account to
the stored freelancer. -/
theorem freelancer_account_guard_witness :
    approve_release sampleSubmitted 0 3 25 50 (fun _ => 20) =
      .error .UnauthorizedFreelancer ∧
    trigger_auto_release sampleSubmitted 3 11 25 50 (fun _ => 20) =
      .error .UnauthorizedFreelancer ∧
    (1 : Nat) = sampleSubmitted.freelancer :=
  ⟨(freelancer_account_guard sampleSubmitted 0 3 11 25 50 (fun _ => 20)).1 rfl
     (by decide),
   (freelancer_account_guard sampleSubmitted 0 3 11 25 50 (fun _ => 20)).2.1
     (by decide),
   (freelancer_account_guard sampleSubmitted 0 1 11 25 50 (fun _ => 20)).2.2.2.2.1
     ⟨{ sampleSubmitted with is_released := true, amount := 0 }, 20, 55⟩ rfl⟩

/-- Counterexample to C7 as stated: an Approve whose caller is not the
record's client and whose freelancer account is also wrong fails with
`UnauthorizedClient`, not `UnauthorizedFreelancer` (no value moves either
way). -/
theorem freelancer_guard_cex :
    (3 : Nat) ≠ sampleSubmitted.freelancer ∧
    approve_release sampleSubmitted 2 3 25 50 (fun _ => 20) =
      .error .UnauthorizedClient ∧
    approve_release sampleSubmitted 2 3 25 50 (fun _ => 20) ≠
      .error .UnauthorizedFreelancer :=
  ⟨by decide, by decide, by decide⟩

/-- C8: `submit_work` takes no clock reading at all (the handler never
calls `Clock::get`), so whenever its authorization, length and state-flag
preconditions hold it succeeds — in particular at clock readings strictly
past the record's deadline — and an authorized AutoRelease strictly after
the deadline still succeeds on the submitted record afterwards. -/
theorem submit_no_deadline_check (e : EscrowAccount) (c : Nat) (m : List Nat)
    (el fll : Nat) (mb : Nat → Nat)
    (hc : c = e.freelancer) (hm : m.length ≤ 256)
    (hr : e.is_released = false) (hs : e.is_submitted = false) :
    submit_work e c m = .ok { e with metadata_ref := m, is_submitted := true } ∧
    ∀ now : Int, e.deadline < now →
      trigger_auto_release { e with metadata_ref := m, is_submitted := true }
          e.freelancer now el fll mb =
        .ok { escrow := { e with
                          metadata_ref := m
                          is_submitted := true
                          is_released := true
                          amount := 0 }
              escrow_lamports := el - (el - mb (8 + EscrowAccount.LEN))
              freelancer_lamports := fll + (el - mb (8 + EscrowAccount.LEN)) } := by
  constructor
  · subst hc
    simp [submit_work, Nat.not_lt.mpr hm, hr, hs]
  · intro now hd
    simp [trigger_auto_release, hr, not_le.mpr hd]

/-- Witness for C8: submission at a clock reading `11` past the sample
deadline `10` succeeds, and auto-release then succeeds at the same
reading. -/
theorem submit_no_deadline_check_witness :
    submit_work sampleEscrow 1 [9] =
      .ok { sampleEscrow with metadata_ref := [9], is_submitted := true } ∧
    trigger_auto_release { sampleEscrow with metadata_ref := [9], is_submitted := true }
        sampleEscrow.freelancer 11 25 50 (fun _ => 20) =
      .ok { escrow := { sampleEscrow with
                        metadata_ref := [9]
                        is_submitted := true
                        is_released := true
                        amount := 0 }
            escrow_lamports := 25 - (25 - (fun _ : Nat => 20) (8 + EscrowAccount.LEN))
            freelancer_lamports := 50 + (25 - (fun _ : Nat => 20) (8 + EscrowAccount.LEN)) } := by
  have h := submit_no_deadline_check sampleEscrow 1 [9] 25 50 (fun _ => 20) rfl
    (by decide) rfl rfl
  exact ⟨h.1, h.2 11 (by decide)⟩

/-- C9: a successful SubmitWork changes only `metadata_ref` and
`is_submitted`; a successful ApproveRelease or TriggerAutoRelease changes
only `is_released` and `amount`, leaving `metadata_ref` and
`is_submitted` intact; in every case `client`, `freelancer`, `deadline`,
`escrow_id` and `bump` are unchanged. -/
theorem frame_conditions (e : EscrowAccount) (c : Nat) (m : List Nat)
    (e2 : EscrowAccount) (caller fl : Nat) (now : Int) (el fll : Nat)
    (mb : Nat → Nat) (r : ReleaseResult) :
    (submit_work e c m = .ok e2 →
      e2.client = e.client ∧ e2.freelancer = e.freelancer ∧ e2.amount = e.amount ∧
      e2.deadline = e.deadline ∧ e2.escrow_id = e.escrow_id ∧ e2.bump = e.bump) ∧
    (approve_release e caller fl el fll mb = .ok r →
      r.escrow.client = e.client ∧ r.escrow.freelancer = e.freelancer ∧
      r.escrow.deadline = e.deadline ∧ r.escrow.escrow_id = e.escrow_id ∧
      r.escrow.bump = e.bump ∧ r.escrow.metadata_ref = e.metadata_ref ∧
      r.escrow.is_submitted = e.is_submitted) ∧
    (trigger_auto_release e fl now el fll mb = .ok r →
      r.escrow.client = e.client ∧ r.escrow.freelancer = e.freelancer ∧
      r.escrow.deadline = e.deadline ∧ r.escrow.escrow_id = e.escrow_id ∧
      r.escrow.bump = e.bump ∧ r.escrow.metadata_ref = e.metadata_ref ∧
      r.escrow.is_submitted = e.is_submitted) := by
  refine ⟨?_, ?_, ?_⟩
  · intro hok
    obtain ⟨_, _, _, _, he⟩ := submit_work_ok hok
    subst he
    exact ⟨rfl, rfl, rfl, rfl, rfl, rfl⟩
  · intro hok
    obtain ⟨_, _, _, _, hr'⟩ := approve_release_ok hok
    subst hr'
    exact ⟨rfl, rfl, rfl, rfl, rfl, rfl, rfl⟩
  · intro hok
    obtain ⟨_, _, _, _, hr'⟩ := trigger_auto_release_ok hok
    subst hr'
    exact ⟨rfl, rfl, rfl, rfl, rfl, rfl, rfl⟩

/-- Witness for C9: frame facts extracted from the concrete successful
submit and the concrete successful approve of the sample deal. -/
theorem frame_conditions_witness :
    ({ sampleEscrow with metadata_ref := [9], is_submitted := true } : EscrowAccount).client
        = sampleEscrow.client ∧
    ({ sampleSubmitted with is_released := true, amount := 0 } : EscrowAccount).metadata_ref
        = sampleSubmitted.metadata_ref ∧
    ({ sampleSubmitted with is_released := true, amount := 0 } : EscrowAccount).is_submitted
        = sampleSubmitted.is_submitted :=
  ⟨((frame_conditions sampleEscrow 1 [9]
      { sampleEscrow with metadata_ref := [9], is_submitted := true } 0 1 11 25 50
      (fun _ => 20) ⟨sampleEscrow, 0, 0⟩).1 rfl).1,
   ((frame_conditions sampleSubmitted 1 [9] sampleSubmitted 0 1 11 25 50
      (fun _ => 20)
      ⟨{ sampleSubmitted with is_released := true, amount := 0 }, 20, 55⟩).2.1
      rfl).2.2.2.2.2.1,
   ((frame_conditions sampleSubmitted 1 [9] sampleSubmitted 0 1 11 25 50
      (fun _ => 20)
      ⟨{ sampleSubmitted with is_released := true, amount := 0 }, 20, 55⟩).2.1
      rfl).2.2.2.2.2.2⟩

/-- C10: `initialize_config` always sets `is_active = true` and
`is_paused = false`, stores the caller's identity as `authority`, sets
`version = 1`, and stores `fee_bps` and `treasury` exactly as supplied —
there is no validation of `fee_bps` against any range (the theorem holds
for every value). -/
theorem initialize_config_spec (authority bump fee_bps treasury : Nat) :
    (initialize_config authority bump fee_bps treasury).is_active = true ∧
    (initialize_config authority bump fee_bps treasury).is_paused = false ∧
    (initialize_config authority bump fee_bps treasury).authority = authority ∧
    (initialize_config authority bump fee_bps treasury).version = 1 ∧
    (initialize_config authority bump fee_bps treasury).fee_bps = fee_bps ∧
    (initialize_config authority bump fee_bps treasury).treasury = treasury ∧
    (initialize_config authority bump fee_bps treasury).bump = bump :=
  ⟨rfl, rfl, rfl, rfl, rfl, rfl, rfl⟩

end Workspace
